import Mathlib

/-!
Verification of `src/bot.py` (tweetx6h): a single-run bot that fetches a
JSON array of token records, scores each token by the number of
`channel_calls` entries with `win_rate > 30`, keeps the tokens with a
positive score, sorts them by score descending (Python's `sorted` with
`reverse=True`, a stable sort), truncates to the top 3, formats a tweet
and a reply, and publishes them with rate-limit handling.

The embedding below translates the Python functions into Lean:
dictionaries with optional keys become structures with `Option` fields
read through `Option.getD` (mirroring `dict.get(key, default)`), JSON
numbers become `Rat`, and the effectful parts of `main` become a pure
trace function over explicit outcome parameters (HTTP results, image
availability, tweet-creation outcomes, the clock).
-/

namespace Bot

/-- A call record: a dict carrying an optional `win_rate` number
(`call.get('win_rate', 0)` defaults the missing key to `0`). -/
structure Call where
  win_rate : Option Rat
deriving DecidableEq

/-- A token record from the feed: a dict with optional `symbol`,
`address` and `channel_calls` keys, each read with `dict.get` defaults
(`'Unknown'`, `'No Address Provided'`, `[]`). -/
structure Token where
  symbol : Option String
  address : Option String
  channel_calls : Option (List Call)
deriving DecidableEq

/-- A token copy augmented with the derived `filtered_calls` count
(`token_copy['filtered_calls'] = count_calls` in `get_top_tokens`). -/
structure RankedToken where
  token : Token
  filtered_calls : Nat
deriving DecidableEq

/-- The filter predicate of `get_top_tokens`:
`call.get('win_rate', 0) > 30`. -/
def qualifies (c : Call) : Bool :=
  decide ((30 : Rat) < c.win_rate.getD 0)

/-- The `count_calls` value for one token: the length of the filtered
list `[call for call in channel_calls if call.get('win_rate', 0) > 30]`. -/
def filteredCallCount (t : Token) : Nat :=
  ((t.channel_calls.getD []).filter qualifies).length

/-- The `tokens_with_filtered_calls` accumulation loop of
`get_top_tokens`: keep each token whose qualifying-call count is
positive, annotated with that count, in feed order. -/
def tokensWithFilteredCalls (data : List Token) : List RankedToken :=
  data.filterMap (fun t =>
    if 0 < filteredCallCount t then some ⟨t, filteredCallCount t⟩ else none)

/-- One step of a stable descending insertion sort: insert `x` before
the first element whose `filtered_calls` is ≤ `x`'s, so that elements
already in the list with an equal score stay in front of `x`.  This is
the extensional behaviour of Python's stable
`sorted(key=lambda x: x.get('filtered_calls', 0), reverse=True)`:
stable sorts agree extensionally, and stability is proved below as the
filter characterisation `sortDesc_filter_key`. -/
def insertDesc (x : RankedToken) : List RankedToken → List RankedToken
  | [] => [x]
  | y :: ys =>
    if x.filtered_calls < y.filtered_calls then y :: insertDesc x ys
    else x :: y :: ys

/-- Stable sort by `filtered_calls` descending (the `sorted_tokens`
line of `get_top_tokens`). -/
def sortDesc (l : List RankedToken) : List RankedToken :=
  l.foldr insertDesc []

/-- The pure part of `get_top_tokens` applied to parsed feed data:
filter, annotate, stable-sort descending, take the first 3
(`sorted_tokens[:3]`). -/
def get_top_tokens_of_data (data : List Token) : List RankedToken :=
  (sortDesc (tokensWithFilteredCalls data)).take 3

/-- Outcome of the feed request in `get_top_tokens`.  `requests.get`
raising (network failure), `raise_for_status` raising (non-2xx), and a
body that is not a JSON array (iteration or `.get` raising) are all
caught by the blanket `except Exception` handler. -/
inductive FeedResponse
  | ok (data : List Token)
  | networkError
  | badStatus
  | notAnArray
deriving DecidableEq

/-- The whole of `get_top_tokens`: on any exception while fetching or
processing the feed, log and return `None`; otherwise return the
ranked top 3. -/
def get_top_tokens (feed : FeedResponse) : Option (List RankedToken) :=
  match feed with
  | .ok data => some (get_top_tokens_of_data data)
  | .networkError => none
  | .badStatus => none
  | .notAnArray => none

/-- The `headers` list of `format_tweet` (10 rotating headers). -/
def headers : List String :=
  ["🧠 Monty Log Dump - Top Called 6h",
   "🚨 Most Called Tokens 6h",
   "📟 Monty Watch: 6h 📞 Frenzy",
   "🎯 Top Degen Focus (Callers)",
   "🤖 Monty Scraped This for You:",
   "📞 6h Top Called Leaderboard:",
   "📡 Last 10h: Most Called Projects",
   "📞 Degens are loud af Top 6h Calls:",
   "📞 Monty Call Sheet  6h",
   "🚨 6h Top Callers Report"]

/-- The `medals` list of `format_tweet`. -/
def medals : List String := ["🥇", "🥈", "🥉"]

/-- Python's `str.rstrip('\n')`: drop every trailing newline. -/
def rstripNL (s : String) : String :=
  ⟨(s.data.reverse.dropWhile (fun c => c = '\n')).reverse⟩

/-- The per-token block appended by the loop body of `format_tweet` at
0-based rank `i`: medal (or `f"{i+1}."` from rank 3 on), symbol,
address, and the filtered-call count, with the loop's newlines. -/
def tokenLine (i : Nat) (t : RankedToken) : String :=
  medals.getD i (toString (i + 1) ++ ".") ++ " $" ++ t.token.symbol.getD "Unknown"
    ++ "\n" ++ t.token.address.getD "No Address Provided" ++ "\n📞 "
    ++ toString t.filtered_calls ++ "\n\n"

/-- The `format_tweet` function: header selected by
`current_hour % len(headers)`, the per-token blocks accumulated by
`enumerate(top_3_tokens, 0)`, then the newline rstrip and the
two-newline `1/2` footer. -/
def format_tweet (hour : Nat) (tokens : List RankedToken) : String :=
  rstripNL
      ((tokens.enum).foldl (fun acc p => acc ++ tokenLine p.1 p.2)
        (headers.getD (hour % headers.length) "" ++ "\n\n"))
    ++ "\n\n1/2"

/-- The `messages` list of `format_link_tweet` (10 rotating reply
messages). -/
def messages : List String :=
  ["Degeneracy is alive and WELL 📞📞📞",
   "Called more than your ex",
   "Is it conviction or just click addiction?",
   "High call count = high cope?",
   "Get in or get laughed at",
   "Chart going up? no clue. calls going beep",
   "Zero fundamentals, max vibes",
   "Calls mean nothing, but they do mean something",
   "Degens only sleep when their wallets do 💤",
   "Nothing but vibes & unpaid interns 📞"]

/-- The `format_link_tweet` function: `2/2`, the message selected by
`current_minute % len(messages)`, the data-source link and hashtags. -/
def format_link_tweet (minute : Nat) : String :=
  "2/2\n\n" ++ messages.getD (minute % messages.length) ""
    ++ "\n\n🧪 Data from: 🔗 https://outlight.fun/\n\n#SOL #Outlight #TokenCalls"

/-- The four credential environment variables read at module load
(`os.getenv` yields `None` when the variable is absent). -/
structure Env where
  api_key : Option String
  api_secret : Option String
  access_token : Option String
  access_token_secret : Option String
deriving DecidableEq

/-- Python truthiness of an `os.getenv` result: `None` and the empty
string are falsy. -/
def truthy : Option String → Bool
  | none => false
  | some s => !s.isEmpty

/-- The `all([api_key, api_secret, access_token, access_token_secret])`
check at the top of `main`. -/
def credsOk (e : Env) : Bool :=
  truthy e.api_key && truthy e.api_secret && truthy e.access_token
    && truthy e.access_token_secret

/-- State of one of the local image files: missing on disk
(`os.path.isfile` false), present but `media_upload` raises, or
uploaded successfully. -/
inductive ImageStatus
  | missing
  | uploadError
  | uploaded
deriving DecidableEq

/-- Outcome of one `client.create_tweet` call: success, a
`tweepy.TooManyRequests` carrying the `x-rate-limit-reset` header, or
any other exception. -/
inductive PostOutcome
  | success (id : Nat)
  | rateLimited (reset : Int)
  | apiError
deriving DecidableEq

/-- Observable events of one `main` run, in order: HTTP calls to the
two external services, warnings, sleeps, and the rate-limit logs. -/
inductive Event
  | authCall
  | fetchFeed
  | warnLongMain
  | warnLongReply
  | uploadMain
  | uploadReply
  | createMain (withImage : Bool)
  | createReply (withImage : Bool)
  | sleep (seconds : Int)
  | logWaitMain (wait : Int)
  | logWaitReply (wait : Int)
  | logError
deriving DecidableEq

/-- The wait computed by every rate-limit handler in `bot.py`:
`max(reset_time - current_time + 10, 60)`. -/
def waitTime (reset now : Int) : Int :=
  max (reset - now + 10) 60

/-- All effectful inputs of one `main` run. -/
structure MainInputs where
  env : Env
  authOk : Bool
  feed : FeedResponse
  hour : Nat
  minute : Nat
  now : Int
  mainImage : ImageStatus
  replyImage : ImageStatus
  mainPost : PostOutcome
  replyPost : PostOutcome
  replyRetry : PostOutcome
deriving DecidableEq

/-- The image-upload preamble shared by the main tweet and the reply:
the upload events produced and whether a media id is available.
A missing file is logged without an upload attempt; an upload error is
logged and the tweet proceeds without an image. -/
def imageEvents (st : ImageStatus) (upload : Event) : List Event × Bool :=
  match st with
  | .missing => ([], false)
  | .uploadError => ([upload], false)
  | .uploaded => ([upload], true)

/-- The inner reply-tweet block of `main` (the `try` at the
`create_tweet(..., in_reply_to_tweet_id=...)` call): on
`TooManyRequests` log the computed wait, sleep it, and retry exactly
once, logging a second failure; any other failure is logged by the
outer handlers with no retry. -/
def publishReply (i : MainInputs) (withImage : Bool) : List Event :=
  match i.replyPost with
  | .success _ => [.createReply withImage]
  | .apiError => [.createReply withImage, .logError]
  | .rateLimited reset =>
    [.createReply withImage, .logWaitReply (waitTime reset i.now),
     .sleep (waitTime reset i.now)] ++
    match i.replyRetry with
    | .success _ => [.createReply withImage]
    | .rateLimited _ => [.createReply withImage, .logError]
    | .apiError => [.createReply withImage, .logError]

/-- The outer publish `try` of `main`: upload the main image, create
the main tweet, and on success sleep 60 s, format and length-check the
reply, upload the reply image, and run the reply block.  A
`TooManyRequests` from the main tweet only logs the computed wait (the
retry is left unimplemented in the source); other exceptions are
logged. -/
def publishEvents (i : MainInputs) : List Event :=
  (imageEvents i.mainImage .uploadMain).1 ++
  match i.mainPost with
  | .rateLimited reset =>
    [.createMain (imageEvents i.mainImage .uploadMain).2,
     .logWaitMain (waitTime reset i.now)]
  | .apiError => [.createMain (imageEvents i.mainImage .uploadMain).2, .logError]
  | .success _ =>
    [.createMain (imageEvents i.mainImage .uploadMain).2, .sleep 60] ++
    (if 280 < (format_link_tweet i.minute).length then [.warnLongReply] else []) ++
    (imageEvents i.replyImage .uploadReply).1 ++
    publishReply i (imageEvents i.replyImage .uploadReply).2

/-- The event trace of one `main` run: credential check, client setup
and `get_me`, feed fetch and ranking, main-tweet length check, then
the publish sequence.  Every path falls through to the final log line
and a plain `return`. -/
def mainTrace (i : MainInputs) : List Event :=
  if credsOk i.env then
    if i.authOk then
      [.authCall, .fetchFeed] ++
      match get_top_tokens i.feed with
      | none => []
      | some top3 =>
        if top3.isEmpty then []
        else
          (if 280 < (format_tweet i.hour top3).length then [.warnLongMain] else []) ++
          publishEvents i
    else [.authCall]
  else []

/-- The process exit status of one run.  `bot.py` never calls
`sys.exit` and every branch of `main` ends in a bare `return` (all
exceptions are caught), so the interpreter always exits with 0. -/
def mainExitCode (_ : MainInputs) : Nat := 0

/-- Discriminator for main-tweet creation attempts in a trace. -/
def isCreateMain : Event → Bool
  | .createMain _ => true
  | _ => false

/-- Discriminator for reply-tweet creation attempts in a trace. -/
def isCreateReply : Event → Bool
  | .createReply _ => true
  | _ => false

/-- Discriminator for sleep events in a trace. -/
def isSleep : Event → Bool
  | .sleep _ => true
  | _ => false

/-- Fixture: a token with one qualifying call (`win_rate` 31). -/
def tokenA : Token := ⟨some "A", some "0xA", some [⟨some 31⟩]⟩

/-- Fixture: a token with one qualifying call (`win_rate` 40). -/
def tokenB : Token := ⟨some "B", some "0xB", some [⟨some 40⟩]⟩

/-- Fixture: a token whose only call does not qualify (`win_rate` 10). -/
def tokenC : Token := ⟨some "C", some "0xC", some [⟨some 10⟩]⟩

/-- Fixture: a token record without a `channel_calls` key. -/
def tokenZ : Token := ⟨some "Z", none, none⟩

/-- Fixture: `tokenA` annotated with its score. -/
def rankedA : RankedToken := ⟨tokenA, 1⟩

/-- Fixture: `tokenB` annotated with its score. -/
def rankedB : RankedToken := ⟨tokenB, 1⟩

/-- Fixture: an environment with all four credentials set. -/
def envFull : Env := ⟨some "k", some "s", some "t", some "u"⟩

/-- Fixture: an environment whose consumer key is absent. -/
def envMissing : Env := ⟨none, some "s", some "t", some "u"⟩

/-- Fixture: a run in which everything succeeds. -/
def inputsBase : MainInputs :=
  ⟨envFull, true, .ok [tokenA, tokenB], 0, 0, 1000, .missing, .missing,
   .success 11, .success 12, .success 13⟩

/-- Fixture: a 300-character symbol, long enough to push the formatted
tweet over the 280-character limit. -/
def longSym : String := ⟨List.replicate 300 'X'⟩

/-- Fixture: a qualifying token whose symbol is 300 characters long. -/
def tokenLong : Token := ⟨some longSym, some "0xL", some [⟨some 31⟩]⟩

/-- Fixture: a successful run whose main tweet exceeds 280 characters. -/
def inputsLong : MainInputs :=
  ⟨envFull, true, .ok [tokenLong], 2, 3, 1000, .uploaded, .uploaded,
   .success 11, .success 12, .success 13⟩

/-- Fixture: a successful run with a missing main image and a failing
reply-image upload. -/
def inputsImg : MainInputs :=
  ⟨envFull, true, .ok [tokenA, tokenB], 0, 0, 1000, .missing, .uploadError,
   .success 11, .success 12, .success 13⟩

end Bot

namespace Bot

example : qualifies ⟨some 31⟩ = true := by decide

example : qualifies ⟨some 30⟩ = false := by decide

example : qualifies ⟨none⟩ = false := by decide

example : qualifies ⟨some (mkRat 61 2)⟩ = true := by decide

example :
    get_top_tokens_of_data
      [⟨some "A", some "0xA", some [⟨some 31⟩]⟩,
       ⟨some "B", some "0xB", some [⟨some 40⟩, ⟨some 50⟩]⟩,
       ⟨some "C", some "0xC", some [⟨some 10⟩]⟩] =
      [⟨⟨some "B", some "0xB", some [⟨some 40⟩, ⟨some 50⟩]⟩, 2⟩,
       ⟨⟨some "A", some "0xA", some [⟨some 31⟩]⟩, 1⟩] := by decide

example : waitTime 1045 1000 = 60 := by decide

example : waitTime 2000 1000 = 1010 := by decide

example : format_tweet 0 [] = "🧠 Monty Log Dump - Top Called 6h\n\n1/2" := by decide

example :
    format_tweet 1 [⟨⟨some "BAR", some "0xBB", some []⟩, 9⟩, ⟨⟨some "FOO", some "0xAA", some []⟩, 5⟩] =
      "🚨 Most Called Tokens 6h\n\n🥇 $BAR\n0xBB\n📞 9\n\n🥈 $FOO\n0xAA\n📞 5\n\n1/2" := by decide

end Bot

namespace Bot

open scoped List

theorem insertDesc_perm (x : RankedToken) (l : List RankedToken) :
    insertDesc x l ~ x :: l := by
  induction l with
  | nil => exact List.Perm.refl _
  | cons y ys ih =>
    simp only [insertDesc]
    split
    · exact (ih.cons y).trans (List.Perm.swap x y ys)
    · exact List.Perm.refl _

theorem sortDesc_perm (l : List RankedToken) : sortDesc l ~ l := by
  induction l with
  | nil => exact List.Perm.refl _
  | cons x xs ih => exact (insertDesc_perm x (sortDesc xs)).trans (ih.cons x)

theorem pairwise_insertDesc (x : RankedToken) (l : List RankedToken)
    (h : l.Pairwise (fun a b => b.filtered_calls ≤ a.filtered_calls)) :
    (insertDesc x l).Pairwise (fun a b => b.filtered_calls ≤ a.filtered_calls) := by
  induction l with
  | nil => simp [insertDesc]
  | cons y ys ih =>
    rw [List.pairwise_cons] at h
    simp only [insertDesc]
    split
    · rename_i hlt
      rw [List.pairwise_cons]
      refine ⟨fun z hz => ?_, ih h.2⟩
      rcases List.mem_cons.mp ((insertDesc_perm x ys).mem_iff.mp hz) with hz1 | hz2
      · subst hz1; omega
      · exact h.1 z hz2
    · rename_i hge
      rw [List.pairwise_cons, List.pairwise_cons]
      refine ⟨fun z hz => ?_, h.1, h.2⟩
      rcases List.mem_cons.mp hz with hz1 | hz2
      · subst hz1; omega
      · have := h.1 z hz2; omega

theorem sortDesc_sorted (l : List RankedToken) :
    (sortDesc l).Pairwise (fun a b => b.filtered_calls ≤ a.filtered_calls) := by
  induction l with
  | nil => simp [sortDesc]
  | cons x xs ih => exact pairwise_insertDesc x (sortDesc xs) ih

theorem filter_key_insertDesc (v : Nat) (x : RankedToken) (l : List RankedToken) :
    (insertDesc x l).filter (fun r => r.filtered_calls == v) =
      if x.filtered_calls == v
      then x :: l.filter (fun r => r.filtered_calls == v)
      else l.filter (fun r => r.filtered_calls == v) := by
  induction l with
  | nil =>
    simp only [insertDesc, List.filter_cons, List.filter_nil]
  | cons y ys ih =>
    simp only [insertDesc]
    split
    · rename_i hlt
      rw [List.filter_cons, List.filter_cons, ih]
      by_cases hx : x.filtered_calls = v <;> by_cases hy : y.filtered_calls = v
      · exfalso; omega
      · simp [hx, hy]
      · simp [hx, hy]
      · simp [hx, hy]
    · rename_i hge
      simp [List.filter_cons]

theorem filter_key_sortDesc (v : Nat) (l : List RankedToken) :
    (sortDesc l).filter (fun r => r.filtered_calls == v) =
      l.filter (fun r => r.filtered_calls == v) := by
  induction l with
  | nil => rfl
  | cons x xs ih =>
    show ((insertDesc x (sortDesc xs)).filter _) = _
    rw [filter_key_insertDesc, ih, List.filter_cons]

theorem mem_tokensWithFilteredCalls {r : RankedToken} {data : List Token}
    (h : r ∈ tokensWithFilteredCalls data) :
    r.token ∈ data ∧ r.filtered_calls = filteredCallCount r.token ∧
      0 < filteredCallCount r.token := by
  rw [tokensWithFilteredCalls, List.mem_filterMap] at h
  obtain ⟨t, ht, hf⟩ := h
  by_cases h0 : 0 < filteredCallCount t
  · rw [if_pos h0] at hf
    obtain rfl := Option.some.inj hf
    exact ⟨ht, rfl, h0⟩
  · rw [if_neg h0] at hf
    exact absurd hf (by simp)

theorem mem_ranked_of_mem_top (r : RankedToken) (data : List Token)
    (h : r ∈ get_top_tokens_of_data data) : r ∈ tokensWithFilteredCalls data :=
  (sortDesc_perm _).mem_iff.mp ((List.take_sublist 3 _).subset h)

theorem token_ne_of_zero (data : List Token) (t : Token)
    (h0 : filteredCallCount t = 0) (r : RankedToken)
    (hr : r ∈ get_top_tokens_of_data data) : r.token ≠ t := by
  intro he
  have h := mem_tokensWithFilteredCalls (mem_ranked_of_mem_top r data hr)
  rw [he] at h
  omega

theorem map_token_tokensWithFilteredCalls (data : List Token) :
    (tokensWithFilteredCalls data).map RankedToken.token =
      data.filter (fun t => decide (0 < filteredCallCount t)) := by
  induction data with
  | nil => rfl
  | cons t ts ih =>
    rw [tokensWithFilteredCalls, List.filterMap_cons, List.filter_cons]
    rw [tokensWithFilteredCalls] at ih
    by_cases h0 : 0 < filteredCallCount t
    · simp [h0, ih]
    · simp [h0, ih]

end Bot

namespace Bot

open scoped List

/-- C1: for every parsed feed, the ranked output of `get_top_tokens`
has length at most 3 and is sorted by `filtered_calls` (the score)
in descending order, and any two ranked tokens with equal scores
appear in the same relative order as in the original feed (the sort is
stable). -/
theorem C1_output_bounded_sorted_stable (data : List Token) :
    (get_top_tokens_of_data data).length ≤ 3 ∧
    (get_top_tokens_of_data data).Pairwise
      (fun a b => b.filtered_calls ≤ a.filtered_calls) ∧
    ∀ a b : RankedToken, a.filtered_calls = b.filtered_calls →
      [a, b] <+ get_top_tokens_of_data data → [a.token, b.token] <+ data := by
  refine ⟨List.length_take_le 3 _,
    (sortDesc_sorted _).sublist (List.take_sublist 3 _), ?_⟩
  intro a b hfc hsub
  have hfil : List.filter (fun r => r.filtered_calls == a.filtered_calls) [a, b]
      = [a, b] := by
    rw [List.filter_eq_self]
    intro x hx
    rcases List.mem_cons.mp hx with hx1 | hx2
    · subst hx1; simp
    · rcases List.mem_cons.mp hx2 with hx3 | hx4
      · subst hx3; simp [hfc]
      · exact absurd hx4 (List.not_mem_nil x)
  have s1 : [a, b] <+
      (get_top_tokens_of_data data).filter
        (fun r => r.filtered_calls == a.filtered_calls) := by
    rw [← hfil]
    exact hsub.filter _
  have s2 : (get_top_tokens_of_data data).filter
        (fun r => r.filtered_calls == a.filtered_calls) <+
      (sortDesc (tokensWithFilteredCalls data)).filter
        (fun r => r.filtered_calls == a.filtered_calls) := by
    conv_rhs =>
      rw [← List.take_append_drop 3 (sortDesc (tokensWithFilteredCalls data))]
    rw [List.filter_append]
    exact List.sublist_append_left _ _
  have s4 : [a, b] <+ tokensWithFilteredCalls data := by
    have s13 := s1.trans s2
    rw [filter_key_sortDesc] at s13
    exact s13.trans (List.filter_sublist _)
  have s5 := s4.map RankedToken.token
  rw [map_token_tokensWithFilteredCalls] at s5
  exact s5.trans (List.filter_sublist _)

/-- Witness for C1: a two-token feed where both tokens score 1; the
equal-score pair keeps its feed order through the ranking. -/
theorem C1_witness :
    rankedA.filtered_calls = rankedB.filtered_calls ∧
    [rankedA, rankedB] <+ get_top_tokens_of_data [tokenA, tokenB] ∧
    [rankedA.token, rankedB.token] <+ [tokenA, tokenB] := by
  have hsub : [rankedA, rankedB] <+ get_top_tokens_of_data [tokenA, tokenB] := by
    have he : get_top_tokens_of_data [tokenA, tokenB] = [rankedA, rankedB] := by
      decide
    rw [he]
  exact ⟨rfl, hsub,
    (C1_output_bounded_sorted_stable [tokenA, tokenB]).2.2 rankedA rankedB rfl hsub⟩

/-- C2: every token in the ranked output carries as its score the count
of entries of its `channel_calls` list whose `win_rate` strictly
exceeds 30, and a token with zero such qualifying calls never appears
in the ranked output, whatever its other fields. -/
theorem C2_score_is_qualifying_call_count (data : List Token) :
    (∀ r ∈ get_top_tokens_of_data data,
      r.filtered_calls =
        ((r.token.channel_calls.getD []).filter
          (fun c => decide ((30 : Rat) < c.win_rate.getD 0))).length) ∧
    ∀ t : Token, filteredCallCount t = 0 →
      ∀ r ∈ get_top_tokens_of_data data, r.token ≠ t := by
  constructor
  · intro r hr
    exact (mem_tokensWithFilteredCalls (mem_ranked_of_mem_top r data hr)).2.1
  · intro t h0 r hr
    exact token_ne_of_zero data t h0 r hr

/-- Witness for C2: in the feed `[tokenA, tokenC]`, the ranked entry
for `tokenA` scores its one qualifying call, and `tokenC` (only call
at `win_rate` 10) is not the token of that entry. -/
theorem C2_witness :
    rankedA.filtered_calls =
      ((rankedA.token.channel_calls.getD []).filter
        (fun c => decide ((30 : Rat) < c.win_rate.getD 0))).length ∧
    rankedA.token ≠ tokenC := by
  refine ⟨(C2_score_is_qualifying_call_count [tokenA, tokenC]).1 rankedA (by decide),
    (C2_score_is_qualifying_call_count [tokenA, tokenC]).2 tokenC (by decide)
      rankedA (by decide)⟩

/-- C10: a call record without a `win_rate` key defaults to 0 and never
qualifies, and a token record without a `channel_calls` key counts no
calls and is dropped from the ranking; both reads are total (the
`dict.get` defaults make them non-raising). -/
theorem C10_missing_keys_default_and_drop :
    (∀ c : Call, c.win_rate = none → qualifies c = false) ∧
    ∀ t : Token, t.channel_calls = none →
      filteredCallCount t = 0 ∧
      ∀ (data : List Token) (r : RankedToken),
        r ∈ get_top_tokens_of_data data → r.token ≠ t := by
  constructor
  · intro c hc
    rw [qualifies, hc]
    decide
  · intro t ht
    have h0 : filteredCallCount t = 0 := by
      rw [filteredCallCount, ht]
      rfl
    exact ⟨h0, fun data r hr => token_ne_of_zero data t h0 r hr⟩

/-- Witness for C10: the keyless call never qualifies, and `tokenZ`
(no `channel_calls` key) scores 0 and is not the token of the ranked
entry of the feed `[tokenA, tokenZ]`. -/
theorem C10_witness :
    qualifies ⟨none⟩ = false ∧ filteredCallCount tokenZ = 0 ∧
    rankedA.token ≠ tokenZ :=
  ⟨C10_missing_keys_default_and_drop.1 ⟨none⟩ rfl,
   (C10_missing_keys_default_and_drop.2 tokenZ rfl).1,
   (C10_missing_keys_default_and_drop.2 tokenZ rfl).2 [tokenA, tokenZ] rankedA
     (by decide)⟩

end Bot

namespace Bot

/-- C4 counterexample: with the consumer key absent from the
environment the run makes no call at all, but the process exit status
is 0, not 1 — `main` just returns (`bot.py` never calls `sys.exit`),
so the claimed exit status 1 is wrong. -/
theorem C4_counterexample :
    envMissing.api_key = none ∧
    mainTrace ⟨envMissing, true, .ok [tokenA], 0, 0, 1000, .missing, .missing,
      .success 11, .success 12, .success 13⟩ = [] ∧
    mainExitCode ⟨envMissing, true, .ok [tokenA], 0, 0, 1000, .missing, .missing,
      .success 11, .success 12, .success 13⟩ ≠ 1 := by
  refine ⟨rfl, ?_, by decide⟩
  decide

/-- C4 (amended): if any one of the four credential values is absent,
no HTTP call is made at all (neither to the social-media API nor to
the feed) and the process terminates — but with exit status 0, because
`main` returns normally and the script never calls `sys.exit`. -/
theorem C4_missing_credential_no_calls (i : MainInputs)
    (h : i.env.api_key = none ∨ i.env.api_secret = none ∨
         i.env.access_token = none ∨ i.env.access_token_secret = none) :
    mainTrace i = [] ∧ mainExitCode i = 0 := by
  have hc : credsOk i.env = false := by
    rcases h with h1 | h1 | h1 | h1 <;>
      simp [credsOk, h1, truthy]
  rw [mainTrace, hc]
  exact ⟨rfl, rfl⟩

/-- Witness for the amended C4 at a concrete environment missing its
consumer key. -/
theorem C4_witness :
    mainTrace ⟨envMissing, true, .ok [tokenA], 0, 0, 1000, .missing, .missing,
        .success 11, .success 12, .success 13⟩ = [] ∧
    mainExitCode ⟨envMissing, true, .ok [tokenA], 0, 0, 1000, .missing, .missing,
        .success 11, .success 12, .success 13⟩ = 0 :=
  C4_missing_credential_no_calls _ (Or.inl rfl)

/-- C5: whenever the feed is unreachable, returns a non-2xx status, or
returns a body that is not an array, `get_top_tokens` yields `None`
instead of raising, and the run skips publishing: no tweet-creation
call appears in the trace and the run still terminates normally. -/
theorem C5_feed_failure_skips_publish (i : MainInputs)
    (h : i.feed = .networkError ∨ i.feed = .badStatus ∨ i.feed = .notAnArray) :
    get_top_tokens i.feed = none ∧
    (∀ b, Event.createMain b ∉ mainTrace i) ∧
    (∀ b, Event.createReply b ∉ mainTrace i) ∧
    mainExitCode i = 0 := by
  have hn : get_top_tokens i.feed = none := by
    rcases h with h1 | h1 | h1 <;> rw [h1] <;> rfl
  refine ⟨hn, ?_, ?_, rfl⟩ <;> intro b <;> rw [mainTrace] <;>
    by_cases hc : credsOk i.env <;> simp [hc] <;>
    by_cases ha : i.authOk <;> simp [ha, hn]

/-- Witness for C5 at a concrete unreachable-feed run. -/
theorem C5_witness :
    get_top_tokens FeedResponse.networkError = none ∧
    Event.createMain false ∉
      mainTrace ⟨envFull, true, .networkError, 0, 0, 1000, .missing, .missing,
        .success 11, .success 12, .success 13⟩ := by
  exact ⟨(C5_feed_failure_skips_publish
      ⟨envFull, true, .networkError, 0, 0, 1000, .missing, .missing,
        .success 11, .success 12, .success 13⟩ (Or.inl rfl)).1,
    (C5_feed_failure_skips_publish
      ⟨envFull, true, .networkError, 0, 0, 1000, .missing, .missing,
        .success 11, .success 12, .success 13⟩ (Or.inl rfl)).2.1 false⟩

end Bot

namespace Bot

theorem mainTrace_eq_of_reach (i : MainInputs) (data : List Token)
    (hc : credsOk i.env = true) (ha : i.authOk = true)
    (hf : i.feed = .ok data) (hne : get_top_tokens_of_data data ≠ []) :
    mainTrace i =
      [.authCall, .fetchFeed] ++
      ((if 280 < (format_tweet i.hour (get_top_tokens_of_data data)).length
        then [Event.warnLongMain] else []) ++
       publishEvents i) := by
  have hie : (get_top_tokens_of_data data).isEmpty = false := by
    cases hq : get_top_tokens_of_data data with
    | nil => exact absurd hq hne
    | cons a l => rfl
  rw [mainTrace, hf]
  simp [hc, ha, get_top_tokens, hie]

end Bot

namespace Bot

/-- C3 counterexample: a run whose primary tweet hits the rate limit
with a reset 45 seconds ahead.  The handler logs the computed wait of
60 seconds, but the trace contains no sleep at all and exactly one
primary-tweet attempt — the primary post is never retried, refuting
the claim that every post (including the primary) is retried once
after sleeping. -/
theorem C3_counterexample :
    Event.logWaitMain 60 ∈
      mainTrace ⟨envFull, true, .ok [tokenA, tokenB], 0, 0, 1000, .missing,
        .missing, .rateLimited 1045, .success 12, .success 13⟩ ∧
    (mainTrace ⟨envFull, true, .ok [tokenA, tokenB], 0, 0, 1000, .missing,
        .missing, .rateLimited 1045, .success 12, .success 13⟩).countP
      isCreateMain = 1 ∧
    (mainTrace ⟨envFull, true, .ok [tokenA, tokenB], 0, 0, 1000, .missing,
        .missing, .rateLimited 1045, .success 12, .success 13⟩).countP
      isSleep = 0 := by
  decide

/-- C3 (amended): on a rate-limit-exceeded response the computed wait
is `max(reset_time - current_time + 10, 60)` (so a reset 45 seconds
ahead waits 60 seconds).  For the reply post the bot logs that wait,
sleeps it, and retries exactly once, with a second failure logged and
not retried further.  For the primary post, however, the handler only
logs the computed wait: the trace shows exactly one primary attempt,
no sleep and no reply attempt — the retry exists only for the reply. -/
theorem countP_ite_single (c : Prop) [inst : Decidable c] (e : Event)
    (f : Event → Bool) (h : f e = false) :
    (if c then [e] else []).countP f = 0 := by
  split <;> simp [h]

theorem countP_image_events (st : ImageStatus) (u : Event)
    (f : Event → Bool) (h : f u = false) :
    ((imageEvents st u).1).countP f = 0 := by
  cases st <;> simp [imageEvents, h]

theorem C3_rate_limit_wait_and_retry (i : MainInputs) (data : List Token)
    (reset : Int)
    (hc : credsOk i.env = true) (ha : i.authOk = true)
    (hf : i.feed = .ok data) (hne : get_top_tokens_of_data data ≠ []) :
    waitTime (i.now + 45) i.now = 60 ∧
    (i.mainPost = .rateLimited reset →
      Event.logWaitMain (max (reset - i.now + 10) 60) ∈ mainTrace i ∧
      (mainTrace i).countP isCreateMain = 1 ∧
      (mainTrace i).countP isSleep = 0 ∧
      (mainTrace i).countP isCreateReply = 0) ∧
    ∀ id, i.mainPost = .success id → i.replyPost = .rateLimited reset →
      Event.logWaitReply (max (reset - i.now + 10) 60) ∈ mainTrace i ∧
      Event.sleep (max (reset - i.now + 10) 60) ∈ mainTrace i ∧
      (mainTrace i).countP isCreateReply = 2 ∧
      ((∀ id2, i.replyRetry ≠ .success id2) →
        Event.logError ∈ mainTrace i) := by
  refine ⟨by rw [waitTime]; omega, ?_, ?_⟩
  · intro hm
    rw [mainTrace_eq_of_reach i data hc ha hf hne, publishEvents, hm]
    refine ⟨?_, ?_, ?_, ?_⟩
    · simp [waitTime, List.mem_append]
    · simp [List.countP_append, List.countP_cons, countP_ite_single,
        countP_image_events, isCreateMain]
    · simp [List.countP_append, List.countP_cons, countP_ite_single,
        countP_image_events, isSleep]
    · simp [List.countP_append, List.countP_cons, countP_ite_single,
        countP_image_events, isCreateReply]
  · intro id hm hr
    rw [mainTrace_eq_of_reach i data hc ha hf hne, publishEvents, hm,
      publishReply, hr]
    refine ⟨?_, ?_, ?_, ?_⟩
    · simp [waitTime, List.mem_append]
    · simp [waitTime, List.mem_append]
    · cases hrr : i.replyRetry <;>
        simp [List.countP_append, List.countP_cons, countP_ite_single,
          countP_image_events, isCreateReply]
    · intro hnr
      cases hrr : i.replyRetry with
      | success id2 => exact absurd hrr (hnr id2)
      | rateLimited r2 => simp [List.mem_append]
      | apiError => simp [List.mem_append]

end Bot

namespace Bot

/-- Witness for the amended C3: a reply rate-limited with reset 45 s
ahead is retried exactly once after logging and sleeping the computed
60-second wait, and the retry failure is logged. -/
theorem C3_witness :
    Event.logWaitReply 60 ∈
      mainTrace ⟨envFull, true, .ok [tokenA, tokenB], 0, 0, 1000, .missing,
        .missing, .success 11, .rateLimited 1045, .apiError⟩ ∧
    Event.sleep 60 ∈
      mainTrace ⟨envFull, true, .ok [tokenA, tokenB], 0, 0, 1000, .missing,
        .missing, .success 11, .rateLimited 1045, .apiError⟩ ∧
    (mainTrace ⟨envFull, true, .ok [tokenA, tokenB], 0, 0, 1000, .missing,
        .missing, .success 11, .rateLimited 1045, .apiError⟩).countP
      isCreateReply = 2 ∧
    Event.logError ∈
      mainTrace ⟨envFull, true, .ok [tokenA, tokenB], 0, 0, 1000, .missing,
        .missing, .success 11, .rateLimited 1045, .apiError⟩ := by
  have h := (C3_rate_limit_wait_and_retry
    ⟨envFull, true, .ok [tokenA, tokenB], 0, 0, 1000, .missing, .missing,
      .success 11, .rateLimited 1045, .apiError⟩ [tokenA, tokenB] 1045
    (by decide) rfl rfl (by decide)).2.2 11 rfl rfl
  have hmax : (max ((1045 : Int) - 1000 + 10) 60) = 60 := by decide
  rw [hmax] at h
  exact ⟨h.1, h.2.1, h.2.2.1,
    h.2.2.2 (fun id2 hcon => PostOutcome.noConfusion hcon)⟩

/-- C6: a formatted body longer than 280 characters produces a warning
in the trace, but the tweet-creation call is still attempted; the
length check never by itself prevents posting (this holds for the main
tweet in every outcome, and for the reply once the main tweet
succeeds). -/
theorem C6_long_body_warns_but_posts (i : MainInputs) (data : List Token)
    (hc : credsOk i.env = true) (ha : i.authOk = true)
    (hf : i.feed = .ok data) (hne : get_top_tokens_of_data data ≠ []) :
    (280 < (format_tweet i.hour (get_top_tokens_of_data data)).length →
      Event.warnLongMain ∈ mainTrace i) ∧
    0 < (mainTrace i).countP isCreateMain ∧
    ∀ id, i.mainPost = .success id →
      (280 < (format_link_tweet i.minute).length →
        Event.warnLongReply ∈ mainTrace i) ∧
      0 < (mainTrace i).countP isCreateReply := by
  rw [mainTrace_eq_of_reach i data hc ha hf hne]
  refine ⟨?_, ?_, ?_⟩
  · intro hw
    simp [hw, List.mem_append]
  · rw [publishEvents]
    cases i.mainPost <;>
      simp [List.countP_append, List.countP_cons, countP_ite_single,
        countP_image_events, isCreateMain]
  · intro id hm
    rw [publishEvents, hm]
    refine ⟨fun hw2 => ?_, ?_⟩
    · simp [hw2, List.mem_append]
    · rw [publishReply]
      cases i.replyPost <;> cases i.replyRetry <;>
        simp [List.countP_append, List.countP_cons, countP_ite_single,
          countP_image_events, isCreateReply]

set_option maxRecDepth 8000 in
/-- Witness for C6: a 300-character symbol makes the main tweet too
long; the warning is in the trace and both creation calls still
happen. -/
theorem C6_witness :
    Event.warnLongMain ∈ mainTrace inputsLong ∧
    0 < (mainTrace inputsLong).countP isCreateMain ∧
    0 < (mainTrace inputsLong).countP isCreateReply := by
  have h := C6_long_body_warns_but_posts inputsLong [tokenLong]
    (by decide) rfl rfl (by decide)
  exact ⟨h.1 (by decide), h.2.1, (h.2.2 11 rfl).2⟩

/-- C8: if the main image file is missing or its upload fails, the
main tweet is still created without an image attachment; likewise the
reply is created without an image when its image is missing or its
upload fails. -/
theorem C8_image_failure_nonfatal (i : MainInputs) (data : List Token)
    (hc : credsOk i.env = true) (ha : i.authOk = true)
    (hf : i.feed = .ok data) (hne : get_top_tokens_of_data data ≠ []) :
    ((i.mainImage = .missing ∨ i.mainImage = .uploadError) →
      Event.createMain false ∈ mainTrace i) ∧
    ∀ id, i.mainPost = .success id →
      (i.replyImage = .missing ∨ i.replyImage = .uploadError) →
      Event.createReply false ∈ mainTrace i := by
  rw [mainTrace_eq_of_reach i data hc ha hf hne]
  constructor
  · intro him
    rw [publishEvents]
    have h2 : (imageEvents i.mainImage .uploadMain).2 = false := by
      rcases him with h1 | h1 <;> rw [h1] <;> rfl
    rw [h2]
    cases i.mainPost <;> simp [List.mem_append]
  · intro id hm him
    rw [publishEvents, hm, publishReply]
    have h2 : (imageEvents i.replyImage .uploadReply).2 = false := by
      rcases him with h1 | h1 <;> rw [h1] <;> rfl
    rw [h2]
    cases i.replyPost <;> simp [List.mem_append]

/-- Witness for C8: with the main image missing and the reply upload
failing, both tweets are still created without images. -/
theorem C8_witness :
    Event.createMain false ∈ mainTrace inputsImg ∧
    Event.createReply false ∈ mainTrace inputsImg := by
  have h := C8_image_failure_nonfatal inputsImg [tokenA, tokenB]
    (by decide) rfl rfl (by decide)
  exact ⟨h.1 (Or.inl rfl), h.2 11 rfl (Or.inr rfl)⟩

end Bot

namespace Bot

theorem rstrip_header :
    ∀ j, j < 10 → rstripNL (headers.getD j "" ++ "\n\n") = headers.getD j "" := by
  decide

theorem foldl_append_factor (l : List (Nat × RankedToken)) (init : String) :
    l.foldl (fun acc p => acc ++ tokenLine p.1 p.2) init =
      init ++ l.foldl (fun acc p => acc ++ tokenLine p.1 p.2) "" := by
  induction l generalizing init with
  | nil => simp
  | cons q qs ih =>
    rw [List.foldl_cons, List.foldl_cons, ih (init ++ tokenLine q.1 q.2),
      ih ("" ++ tokenLine q.1 q.2), String.empty_append, String.append_assoc]

theorem rstripNL_append_factor (a b : String)
    (hb : ∃ c ∈ b.data, c ≠ '\n') :
    rstripNL (a ++ b) = a ++ rstripNL b := by
  cases a with
  | mk ad =>
    cases b with
    | mk bd =>
      have hne : bd.reverse.dropWhile (fun c => c = '\n') ≠ [] := by
        intro h0
        rw [List.dropWhile_eq_nil_iff] at h0
        obtain ⟨c, hc, hcn⟩ := hb
        exact hcn (of_decide_eq_true (h0 c (List.mem_reverse.mpr hc)))
      have hie : (bd.reverse.dropWhile (fun c => c = '\n')).isEmpty = false := by
        cases hq : bd.reverse.dropWhile (fun c => c = '\n') with
        | nil => exact absurd hq hne
        | cons u us => rfl
      apply congrArg String.mk
      show ((ad ++ bd).reverse.dropWhile (fun c => c = '\n')).reverse =
        ad ++ (bd.reverse.dropWhile (fun c => c = '\n')).reverse
      rw [List.reverse_append, List.dropWhile_append, hie]
      simp only [Bool.false_eq_true, if_false]
      rw [List.reverse_append, List.reverse_reverse]

theorem tokenLine_has_non_newline (i : Nat) (t : RankedToken) :
    ∃ c ∈ (tokenLine i t).data, c ≠ '\n' := by
  refine ⟨'$', ?_, by decide⟩
  rw [tokenLine]
  simp only [String.data_append]
  exact List.mem_append_left _ (List.mem_append_left _ (List.mem_append_left _
    (List.mem_append_left _ (List.mem_append_left _ (List.mem_append_left _
      (List.mem_append_right _ (by decide)))))))

/-- C9: applied to the empty ranked list, `format_tweet` is total and
returns exactly the selected header followed by the footer, with no
per-token block. -/
theorem C9_format_tweet_empty (h : Nat) :
    format_tweet h [] = headers.getD (h % 10) "" ++ "\n\n1/2" := by
  show rstripNL (headers.getD (h % 10) "" ++ "\n\n") ++ "\n\n1/2" = _
  rw [rstrip_header (h % 10) (Nat.mod_lt h (by decide))]

/-- C7: header and reply-message rotation is a deterministic function
of the timestamp: both rotation lists have 10 elements, the formatted
tweet for hour `h` starts with the header at index `h % 10`, and the
reply for minute `m` embeds exactly the message at index `m % 10`. -/
theorem C7_rotation_by_timestamp (h m : Nat) (ts : List RankedToken) :
    headers.length = 10 ∧ messages.length = 10 ∧
    (∃ r, format_tweet h ts = headers.getD (h % 10) "" ++ r) ∧
    format_link_tweet m = "2/2\n\n" ++ messages.getD (m % 10) "" ++
      "\n\n🧪 Data from: 🔗 https://outlight.fun/\n\n#SOL #Outlight #TokenCalls" := by
  refine ⟨rfl, rfl, ?_, rfl⟩
  cases ts with
  | nil =>
    refine ⟨"\n\n1/2", ?_⟩
    show rstripNL (headers.getD (h % 10) "" ++ "\n\n") ++ "\n\n1/2" = _
    rw [rstrip_header (h % 10) (Nat.mod_lt h (by decide))]
  | cons t rest =>
    have hfold : (List.enum (t :: rest)).foldl
        (fun acc p => acc ++ tokenLine p.1 p.2)
        (headers.getD (h % 10) "" ++ "\n\n") =
        headers.getD (h % 10) "" ++
          ("\n\n" ++ (List.enum (t :: rest)).foldl
            (fun acc p => acc ++ tokenLine p.1 p.2) "") := by
      rw [foldl_append_factor, String.append_assoc]
    have hb : ∃ c ∈ ("\n\n" ++ (List.enum (t :: rest)).foldl
        (fun acc p => acc ++ tokenLine p.1 p.2) "").data, c ≠ '\n' := by
      obtain ⟨c, hc, hcn⟩ := tokenLine_has_non_newline 0 t
      refine ⟨c, ?_, hcn⟩
      rw [List.enum_cons, List.foldl_cons, String.empty_append,
        foldl_append_factor]
      simp only [String.data_append, List.mem_append]
      exact Or.inr (Or.inl hc)
    refine ⟨rstripNL ("\n\n" ++ (List.enum (t :: rest)).foldl
      (fun acc p => acc ++ tokenLine p.1 p.2) "") ++ "\n\n1/2", ?_⟩
    show rstripNL ((List.enum (t :: rest)).foldl
        (fun acc p => acc ++ tokenLine p.1 p.2)
        (headers.getD (h % 10) "" ++ "\n\n")) ++ "\n\n1/2" = _
    rw [hfold, rstripNL_append_factor _ _ hb, String.append_assoc]

end Bot
